import Mathlib

/-!
Verification of the submission evaluation engine and the task-catalog
deduplication pass of the telegram-bot coding-practice assistant
(src/Documentation.py).

The engine (`solve`, lines 115-168) takes a task record and a string of
user-submitted Python code, loads the code with `exec(user_code, {}, local_vars)`,
looks up the required function name, and runs the task's test cases in order,
stopping at the first failure or exception.  The Python builtins `exec` and
`eval` are the host interpreter, external to the repository; they are embedded
here as oracle parameters (`ex` for `exec`, `ev` for `eval`) that return either
a result or the description of a raised exception, exactly mirroring the
try/except structure of `solve`.  Python runtime values are embedded as the
inductive `Value`, and Python's structural `!=` comparison (line 157) as `pyEq`.

The deduplication pass (lines 46-51) is embedded as `unique_tasks`.

For the namespacing consequence of `exec(user_code, {}, local_vars)`
(lines 139-140), a small model of CPython def-compilation (`Body`,
`compileDef`, `execSeparateNamespaces`) records that a function object
captures the globals dict handed to `exec`: CPython inserts `__builtins__`
into that dict, but the submitted definitions land in `local_vars`, so a
free name in a compiled body resolves in the builtins namespace or not at
all — never to a sibling definition of the same submission.
-/

namespace Bot

/-- Python runtime values that can appear as test-case inputs and outputs:
integers, booleans, strings, None, lists and tuples. -/
inductive Value where
  | int : Int → Value
  | bool : Bool → Value
  | str : String → Value
  | none : Value
  | list : List Value → Value
  | tuple : List Value → Value

mutual

/-- Python structural equality (the `==`/`!=` used at line 157 of
src/Documentation.py): numbers compare by value (`True == 1` holds, since
Python bools are ints), strings by content, lists and tuples element-wise;
a list never equals a tuple; distinct kinds are unequal. -/
def pyEq : Value → Value → Bool
  | .int a, .int b => a == b
  | .int a, .bool b => a == (if b then (1 : Int) else 0)
  | .bool a, .int b => (if a then (1 : Int) else 0) == b
  | .bool a, .bool b => a == b
  | .str a, .str b => a == b
  | .none, .none => true
  | .list as, .list bs => pyEqList as bs
  | .tuple as, .tuple bs => pyEqList as bs
  | _, _ => false

/-- Element-wise structural comparison of two Python sequences. -/
def pyEqList : List Value → List Value → Bool
  | [], [] => true
  | a :: as, b :: bs => pyEq a b && pyEqList as bs
  | _, _ => false

end

/-- Recognizer for the `isinstance(input_data, tuple)` check at line 152. -/
def Value.isTuple : Value → Bool
  | .tuple _ => true
  | _ => false

mutual

/-- Structural equality is reflexive: a freshly built value with the same
contents compares equal to the expected one. -/
theorem pyEq_refl : ∀ v : Value, pyEq v v = true
  | .int a => by simp [pyEq]
  | .bool b => by simp [pyEq]
  | .str s => by simp [pyEq]
  | .none => by simp [pyEq]
  | .list as => by rw [pyEq]; exact pyEqList_refl as
  | .tuple as => by rw [pyEq]; exact pyEqList_refl as

/-- Element-wise reflexivity for sequences. -/
theorem pyEqList_refl : ∀ l : List Value, pyEqList l l = true
  | [] => rfl
  | a :: as => by rw [pyEqList, pyEq_refl a, pyEqList_refl as]; rfl

end

/-- A test case record of tasks.json: `input` is the raw (unparsed) source text
handed to `eval` at line 149, `output` the expected value (line 150). -/
structure TestCase where
  input : String
  output : Value

/-- A task record of tasks.json: difficulty level, description (JSON key
`task`), required function name, and the ordered test cases. -/
structure Task where
  level : String
  task : String
  function_name : String
  test_cases : List TestCase

/-- Verdict of one evaluation, one constructor per reply branch of `solve`:
line 166 (all passed), line 143 (function missing), lines 158-163 (test
failed, with 1-based index, raw input text, expected and actual value), and
line 168 (the catch-all `except Exception`). -/
inductive Verdict where
  | AllPassed : Verdict
  | FunctionMissing : String → Verdict
  | TestFailed : Nat → String → Value → Value → Verdict
  | ExecutionError : String → Verdict

/-- A loaded Python callable: takes the positional-argument list and either
returns a value or raises (described by the exception text). -/
def PyFun : Type := List Value → Except String Value

/-- The `local_vars` namespace produced by `exec`: a finite map from names to
callables (line 139-142: `local_vars = {}` then membership and lookup). -/
def PyNamespace : Type := String → Option PyFun

/-- Call convention of lines 152-155: a tuple input is unpacked as positional
arguments (`user_function(*input_data)`), anything else is passed as the sole
positional argument (`user_function(input_data)`). -/
def callOn (f : PyFun) (v : Value) : Except String Value :=
  match v with
  | .tuple args => f args
  | v => f [v]

/-- The test loop of lines 148-166: cases in declared order, `eval` on the raw
input (line 149), invoke under the call convention (lines 152-155), compare
structurally (line 157); report the first mismatch with 1-based index
(lines 158-164), an exception text on any raise (line 168), and AllPassed
when the loop completes (line 166).  `i` is the 0-based loop counter of
`enumerate`. -/
def runCases (f : PyFun) (ev : String → Except String Value) :
    List TestCase → Nat → Verdict
  | [], _ => Verdict.AllPassed
  | tc :: rest, i =>
    match ev tc.input with
    | .error e => Verdict.ExecutionError e
    | .ok input_data =>
      match callOn f input_data with
      | .error e => Verdict.ExecutionError e
      | .ok result =>
        if pyEq result tc.output then runCases f ev rest (i + 1)
        else Verdict.TestFailed (i + 1) tc.input tc.output result

/-- The evaluation engine, lines 138-168 of `solve`: run `exec` on the
submitted code (`ex` is the exec oracle; a raise anywhere is caught by the
`except` at line 167 and reported as ExecutionError), check that
`function_name` was bound (lines 142-144), then run the test cases. -/
def evaluate (ex : String → Except String PyNamespace)
    (ev : String → Except String Value)
    (task : Task) (user_code : String) : Verdict :=
  match ex user_code with
  | .error e => Verdict.ExecutionError e
  | .ok local_vars =>
    match local_vars task.function_name with
    | Option.none => Verdict.FunctionMissing task.function_name
    | Option.some f => runCases f ev task.test_cases 0

/-- A test case passes for callable `f` under eval oracle `ev`: its input
parses, the call returns, and the result compares structurally equal. -/
def passes (f : PyFun) (ev : String → Except String Value) (tc : TestCase) : Prop :=
  ∃ v r, ev tc.input = Except.ok v ∧ callOn f v = Except.ok r ∧
    pyEq r tc.output = true

/-- Running the loop past a prefix of passing cases just advances the counter. -/
theorem runCases_append (f : PyFun) (ev : String → Except String Value)
    (pre l : List TestCase) (i : Nat)
    (hpre : ∀ tc ∈ pre, passes f ev tc) :
    runCases f ev (pre ++ l) i = runCases f ev l (i + pre.length) := by
  induction pre generalizing i with
  | nil => simp
  | cons tc pre ih =>
    obtain ⟨v, r, hev, hcall, heq⟩ := hpre tc (List.mem_cons_self _ _)
    have hrest : ∀ tc0 ∈ pre, passes f ev tc0 := fun tc0 h =>
      hpre tc0 (List.mem_cons_of_mem _ h)
    simp only [List.cons_append, runCases, hev, hcall, heq, if_true,
      List.append_eq]
    rw [ih _ hrest]
    congr 1
    simp only [List.length_cons]
    omega

/-- Identity of a task for deduplication: the `task_tuple` of line 47,
`(task["level"], task["task"], task["function_name"])`. -/
def taskKey (t : Task) : String × String × String :=
  (t.level, t.task, t.function_name)

/-- The loop of lines 46-51, with `seen` the `seen_tasks` set accumulated so
far: a task whose `task_tuple` was already seen is dropped, otherwise it is
appended to the output and its tuple added to the set. -/
def dedupAux : List Task → List (String × String × String) → List Task
  | [], _ => []
  | t :: rest, seen =>
    if taskKey t ∈ seen then dedupAux rest seen
    else t :: dedupAux rest (taskKey t :: seen)

/-- The deduplication pass of lines 29-51: `unique_tasks` starts empty,
`seen_tasks` starts empty, and the loop keeps the first occurrence of each
`(level, task, function_name)` tuple. -/
def unique_tasks (ts : List Task) : List Task :=
  dedupAux ts []

/-- Every task kept by the loop has a key outside the initial `seen` set. -/
theorem dedupAux_key_not_seen (l : List Task)
    (seen : List (String × String × String)) (t : Task)
    (ht : t ∈ dedupAux l seen) : taskKey t ∉ seen := by
  induction l generalizing seen with
  | nil => simp [dedupAux] at ht
  | cons u rest ih =>
    rw [dedupAux] at ht
    by_cases hu : taskKey u ∈ seen
    · rw [if_pos hu] at ht
      exact ih seen ht
    · rw [if_neg hu] at ht
      rcases List.mem_cons.mp ht with h | h
      · subst h; exact hu
      · have := ih _ h
        intro hmem
        exact this (List.mem_cons_of_mem _ hmem)

/-- Keys of the kept tasks are pairwise distinct. -/
theorem dedupAux_pairwise (l : List Task)
    (seen : List (String × String × String)) :
    (dedupAux l seen).Pairwise (fun a b => taskKey a ≠ taskKey b) := by
  induction l generalizing seen with
  | nil => simp [dedupAux]
  | cons u rest ih =>
    rw [dedupAux]
    by_cases hu : taskKey u ∈ seen
    · rw [if_pos hu]; exact ih seen
    · rw [if_neg hu]
      refine List.Pairwise.cons ?_ (ih _)
      intro b hb hkey
      have := dedupAux_key_not_seen _ _ _ hb
      exact this (hkey ▸ List.mem_cons_self _ _)

/-- The kept tasks form a sublist of the input, in input order. -/
theorem dedupAux_sublist (l : List Task)
    (seen : List (String × String × String)) :
    (dedupAux l seen).Sublist l := by
  induction l generalizing seen with
  | nil => simp [dedupAux]
  | cons u rest ih =>
    rw [dedupAux]
    by_cases hu : taskKey u ∈ seen
    · rw [if_pos hu]; exact (ih seen).cons u
    · rw [if_neg hu]; exact (ih _).cons₂ u

/-- For a key not yet seen, the first kept task with that key is the first
task with that key in the input. -/
theorem dedupAux_find? (l : List Task)
    (seen : List (String × String × String))
    (k : String × String × String) (hk : k ∉ seen) :
    (dedupAux l seen).find? (fun t => decide (taskKey t = k)) =
      l.find? (fun t => decide (taskKey t = k)) := by
  induction l generalizing seen with
  | nil => simp [dedupAux]
  | cons u rest ih =>
    rw [dedupAux]
    by_cases hu : taskKey u ∈ seen
    · rw [if_pos hu]
      have hne : taskKey u ≠ k := fun h => hk (h ▸ hu)
      rw [List.find?_cons_of_neg _ (by simpa using hne), ih seen hk]
    · rw [if_neg hu]
      by_cases huk : taskKey u = k
      · rw [List.find?_cons_of_pos _ (by simpa using huk),
          List.find?_cons_of_pos _ (by simpa using huk)]
      · have hk2 : k ∉ taskKey u :: seen := by
          intro h
          rcases List.mem_cons.mp h with h | h
          · exact huk h.symm
          · exact hk h
        rw [List.find?_cons_of_neg _ (by simpa using huk),
          List.find?_cons_of_neg _ (by simpa using huk), ih _ hk2]

/-- Body of one top-level `def` in a submitted module, as far as name
resolution is concerned: either self-contained (free of module-level names),
or a body whose evaluation reaches a free name `g` applied to arguments
computed from the parameters. -/
inductive Body where
  | selfContained : (List Value → Except String Value) → Body
  | callsFree : String → (List Value → List Value) → Body

/-- CPython compilation of one `def` under the effective resolution
environment of its captured globals dict: the function object stores the
globals mapping passed to `exec`, and at call time a free name in the body
is looked up in that dict and then in the `__builtins__` namespace that
CPython inserted into it.  Since the dict passed at line 140 is the literal
`{}` and receives no submitted definition, the effective environment is
exactly the builtins namespace; an unresolved name raises NameError. -/
def compileDef (builtins : PyNamespace) : Body → PyFun
  | .selfContained f => f
  | .callsFree g argsOf => fun args =>
    match builtins g with
    | Option.none =>
        Except.error ("NameError: name " ++ g ++ " is not defined")
    | Option.some fg => fg (argsOf args)

/-- Model of `exec(user_code, {}, local_vars)` at lines 139-140 for a module
that is a sequence of `def`s: every definition is bound in `local_vars`
(later definitions shadowing earlier ones, as in a dict), but each compiled
function captured the globals dict — the empty dict literal `{}`, into which
CPython inserts only `__builtins__` — which is never the dict receiving the
definitions, so free names fall through to `builtins` and never reach a
sibling definition. -/
def execSeparateNamespaces (builtins : PyNamespace)
    (defs : List (String × Body)) : PyNamespace :=
  defs.foldl
    (fun acc d => fun n =>
      if n = d.1 then Option.some (compileDef builtins d.2)
      else acc n)
    (fun _ => Option.none)

/-- A closure whose free name resolves neither in its captured globals dict
nor in builtins raises NameError as soon as the name is reached, whatever
the arguments. -/
theorem compileDef_unresolvedFree (builtins : PyNamespace) (g : String)
    (argsOf : List Value → List Value) (v : Value)
    (hb : builtins g = Option.none) :
    callOn (compileDef builtins (Body.callsFree g argsOf)) v =
      Except.error ("NameError: name " ++ g ++ " is not defined") := by
  cases v <;> simp [callOn, compileDef, hb]

/-- Model of the CPython builtin `len` on sequences: the length of a list,
tuple or string; TypeError on anything else. -/
def lenFun : PyFun := fun args =>
  match args with
  | [Value.list xs] => Except.ok (Value.int xs.length)
  | [Value.tuple xs] => Except.ok (Value.int xs.length)
  | [Value.str s] => Except.ok (Value.int s.length)
  | _ => Except.error "TypeError: len takes one sequence argument"

/-- A one-entry stand-in for the `__builtins__` namespace that CPython
inserts into the globals dict handed to `exec`: it resolves `len` and
nothing else. -/
def builtinsDemo : PyNamespace := fun n =>
  if n = "len" then Option.some lenFun else Option.none

/-- Callable modelling `exec` of `def add(a, b): return a + b`: two int
arguments return their sum, anything else raises TypeError. -/
def addFun : PyFun := fun args =>
  match args with
  | [Value.int a, Value.int b] => Except.ok (Value.int (a + b))
  | _ => Except.error "TypeError: add expects two int arguments"

/-- Callable modelling `exec` of `def test_func(a, b): return a - b`. -/
def subFun : PyFun := fun args =>
  match args with
  | [Value.int a, Value.int b] => Except.ok (Value.int (a - b))
  | _ => Except.error "TypeError: test_func expects two int arguments"

/-- Callable that ignores its arguments and returns a newly built list
`[1, 2, 3]`. -/
def listFun : PyFun := fun _ =>
  Except.ok (Value.list [Value.int 1, Value.int 2, Value.int 3])

/-- Namespace binding a single name to a callable. -/
def nsOf (name : String) (f : PyFun) : PyNamespace := fun n =>
  if n = name then Option.some f else Option.none

/-- Namespace of a submission that bound nothing. -/
def emptyNs : PyNamespace := fun _ => Option.none

/-- Eval oracle for the concrete input texts used in the examples, mirroring
Python `eval` on those literals; any other text raises NameError. -/
def evalDemo : String → Except String Value := fun s =>
  if s = "(1, 2)" then Except.ok (Value.tuple [Value.int 1, Value.int 2])
  else if s = "(3, 5)" then Except.ok (Value.tuple [Value.int 3, Value.int 5])
  else if s = "(0, 0)" then Except.ok (Value.tuple [Value.int 0, Value.int 0])
  else if s = "(7)" then Except.ok (Value.int 7)
  else if s = "[1, 2]" then Except.ok (Value.list [Value.int 1, Value.int 2])
  else Except.error ("NameError: name " ++ s ++ " is not defined")

/-- Task of the worked example in the spec: function `add`, one test case
with raw input text `(1, 2)` and expected output `3`. -/
def addTask : Task :=
  { level := "easy", task := "Write an addition function.",
    function_name := "add",
    test_cases := [{ input := "(1, 2)", output := Value.int 3 }] }

/-- Task with three test cases for `test_func`, of which the second and the
third fail for the subtraction submission: `(0, 0)` expecting `0` (passes),
`(1, 2)` expecting `3` (fails, actual `-1`), `(3, 5)` expecting `8` (fails). -/
def subTask : Task :=
  { level := "easy", task := "Write an addition function.",
    function_name := "test_func",
    test_cases := [{ input := "(0, 0)", output := Value.int 0 },
                   { input := "(1, 2)", output := Value.int 3 },
                   { input := "(3, 5)", output := Value.int 8 }] }

/-- Task whose expected output is a list. -/
def listTask : Task :=
  { level := "easy", task := "Return the list 1, 2, 3.",
    function_name := "make_list",
    test_cases := [{ input := "(7)",
                     output := Value.list [Value.int 1, Value.int 2, Value.int 3] }] }

/-- Task with an empty test-case list. -/
def emptyTask : Task :=
  { level := "easy", task := "Anything goes.", function_name := "add",
    test_cases := [] }

/-- C1: for every task and every submission whose loaded code defines the
required function, the cases are evaluated strictly in declared order and
evaluation stops at the first failing case: when every case of the prefix
`pre` passes and the next case parses and runs but compares unequal, the
verdict is TestFailed with the 1-based index `pre.length + 1`, the raw input
text, the expected value and the actual value.  The cases `rest` after the
failure are arbitrary and do not influence the verdict, so no later case is
invoked. -/
theorem evaluate_first_failure
    (ex : String → Except String PyNamespace)
    (ev : String → Except String Value)
    (task : Task) (code : String) (ns : PyNamespace) (f : PyFun)
    (pre : List TestCase) (tc : TestCase) (rest : List TestCase)
    (v a : Value)
    (hex : ex code = Except.ok ns)
    (hf : ns task.function_name = Option.some f)
    (hcases : task.test_cases = pre ++ tc :: rest)
    (hpre : ∀ tc0 ∈ pre, passes f ev tc0)
    (hev : ev tc.input = Except.ok v)
    (hcall : callOn f v = Except.ok a)
    (hne : pyEq a tc.output = false) :
    evaluate ex ev task code =
      Verdict.TestFailed (pre.length + 1) tc.input tc.output a := by
  simp only [evaluate, hex, hf, hcases]
  rw [runCases_append f ev pre (tc :: rest) 0 hpre]
  simp [runCases, hev, hcall, hne]

/-- C1 witness: a concrete run in which the first case passes, the second
fails and a third is present; the verdict reports the second case. -/
theorem evaluate_first_failure_witness :
    evaluate (fun _ => Except.ok (nsOf "test_func" subFun)) evalDemo subTask
        "def test_func(a, b): return a - b" =
      Verdict.TestFailed 2 "(1, 2)" (Value.int 3) (Value.int (-1)) :=
  evaluate_first_failure (fun _ => Except.ok (nsOf "test_func" subFun))
    evalDemo subTask "def test_func(a, b): return a - b"
    (nsOf "test_func" subFun) subFun
    [{ input := "(0, 0)", output := Value.int 0 }]
    { input := "(1, 2)", output := Value.int 3 }
    [{ input := "(3, 5)", output := Value.int 8 }]
    (Value.tuple [Value.int 1, Value.int 2]) (Value.int (-1))
    rfl rfl rfl
    (fun tc0 h => by
      simp only [List.mem_singleton] at h
      subst h
      exact ⟨Value.tuple [Value.int 0, Value.int 0], Value.int 0, rfl, rfl, rfl⟩)
    rfl rfl rfl

/-- C2: when the submitted code loads successfully but does not bind the
required function name, the verdict is FunctionMissing with that name; the
test cases and the eval oracle are arbitrary and do not influence the
verdict, so no case is parsed and nothing is invoked. -/
theorem evaluate_function_missing
    (ex : String → Except String PyNamespace)
    (ev : String → Except String Value)
    (task : Task) (code : String) (ns : PyNamespace)
    (hex : ex code = Except.ok ns)
    (hmiss : ns task.function_name = Option.none) :
    evaluate ex ev task code = Verdict.FunctionMissing task.function_name := by
  simp [evaluate, hex, hmiss]

/-- C2 witness: a submission that binds nothing, against a task with a
non-empty test-case list. -/
theorem evaluate_function_missing_witness :
    evaluate (fun _ => Except.ok emptyNs) evalDemo addTask "pass" =
      Verdict.FunctionMissing "add" :=
  evaluate_function_missing (fun _ => Except.ok emptyNs) evalDemo addTask
    "pass" emptyNs rfl rfl

/-- C6: a task with an empty test-case list yields AllPassed for every
submission that loads and binds the required name, whatever the bound
callable computes. -/
theorem evaluate_empty_cases
    (ex : String → Except String PyNamespace)
    (ev : String → Except String Value)
    (task : Task) (code : String) (ns : PyNamespace) (f : PyFun)
    (hex : ex code = Except.ok ns)
    (hf : ns task.function_name = Option.some f)
    (hempty : task.test_cases = []) :
    evaluate ex ev task code = Verdict.AllPassed := by
  simp [evaluate, hex, hf, hempty, runCases]

/-- C6 witness: the empty-case task with the addition submission. -/
theorem evaluate_empty_cases_witness :
    evaluate (fun _ => Except.ok (nsOf "add" addFun)) evalDemo emptyTask
        "def add(a, b): return a + b" =
      Verdict.AllPassed :=
  evaluate_empty_cases (fun _ => Except.ok (nsOf "add" addFun)) evalDemo
    emptyTask "def add(a, b): return a + b" (nsOf "add" addFun) addFun
    rfl rfl rfl

/-- C3: an exception anywhere stops evaluation with ExecutionError carrying
the exception description.  Three situations, as in the code: (1) loading
the submitted code raises; (2) after a prefix of passing cases, `eval` of
the next raw input raises; (3) after a prefix of passing cases, the next
invocation of the loaded callable raises.  In (2) and (3) the cases `rest`
after the raising one are arbitrary and do not influence the verdict, so
the exception preempts any later case. -/
theorem evaluate_execution_error :
    (∀ (ex : String → Except String PyNamespace)
       (ev : String → Except String Value)
       (task : Task) (code : String) (e : String),
      ex code = Except.error e →
      evaluate ex ev task code = Verdict.ExecutionError e) ∧
    (∀ (ex : String → Except String PyNamespace)
       (ev : String → Except String Value)
       (task : Task) (code : String) (ns : PyNamespace) (f : PyFun)
       (pre : List TestCase) (tc : TestCase) (rest : List TestCase)
       (e : String),
      ex code = Except.ok ns →
      ns task.function_name = Option.some f →
      task.test_cases = pre ++ tc :: rest →
      (∀ tc0 ∈ pre, passes f ev tc0) →
      ev tc.input = Except.error e →
      evaluate ex ev task code = Verdict.ExecutionError e) ∧
    (∀ (ex : String → Except String PyNamespace)
       (ev : String → Except String Value)
       (task : Task) (code : String) (ns : PyNamespace) (f : PyFun)
       (pre : List TestCase) (tc : TestCase) (rest : List TestCase)
       (v : Value) (e : String),
      ex code = Except.ok ns →
      ns task.function_name = Option.some f →
      task.test_cases = pre ++ tc :: rest →
      (∀ tc0 ∈ pre, passes f ev tc0) →
      ev tc.input = Except.ok v →
      callOn f v = Except.error e →
      evaluate ex ev task code = Verdict.ExecutionError e) := by
  refine ⟨?_, ?_, ?_⟩
  · intro ex ev task code e hex
    simp [evaluate, hex]
  · intro ex ev task code ns f pre tc rest e hex hf hcases hpre hev
    simp only [evaluate, hex, hf, hcases]
    rw [runCases_append f ev pre (tc :: rest) 0 hpre]
    simp [runCases, hev]
  · intro ex ev task code ns f pre tc rest v e hex hf hcases hpre hev hcall
    simp only [evaluate, hex, hf, hcases]
    rw [runCases_append f ev pre (tc :: rest) 0 hpre]
    simp [runCases, hev, hcall]

/-- C3 witness: the three situations at concrete inputs — a submission whose
load raises a syntax error; a task whose second raw input text does not
parse; a task whose second case calls `add` with a single non-pair argument
so the invocation raises. -/
theorem evaluate_execution_error_witness :
    evaluate (fun _ => Except.error "SyntaxError: invalid syntax") evalDemo
        addTask "def add(a, b): return a +" =
      Verdict.ExecutionError "SyntaxError: invalid syntax" ∧
    evaluate (fun _ => Except.ok (nsOf "add" addFun)) evalDemo
        { level := "easy", task := "Add.", function_name := "add",
          test_cases := [{ input := "(1, 2)", output := Value.int 3 },
                         { input := "undefined_name", output := Value.int 0 },
                         { input := "(3, 5)", output := Value.int 8 }] }
        "def add(a, b): return a + b" =
      Verdict.ExecutionError
        "NameError: name undefined_name is not defined" ∧
    evaluate (fun _ => Except.ok (nsOf "add" addFun)) evalDemo
        { level := "easy", task := "Add.", function_name := "add",
          test_cases := [{ input := "(1, 2)", output := Value.int 3 },
                         { input := "(7)", output := Value.int 7 },
                         { input := "(3, 5)", output := Value.int 8 }] }
        "def add(a, b): return a + b" =
      Verdict.ExecutionError "TypeError: add expects two int arguments" := by
  refine ⟨?_, ?_, ?_⟩
  · exact evaluate_execution_error.1
      (fun _ => Except.error "SyntaxError: invalid syntax") evalDemo addTask
      "def add(a, b): return a +" "SyntaxError: invalid syntax" rfl
  · exact evaluate_execution_error.2.1
      (fun _ => Except.ok (nsOf "add" addFun)) evalDemo
      { level := "easy", task := "Add.", function_name := "add",
        test_cases := [{ input := "(1, 2)", output := Value.int 3 },
                       { input := "undefined_name", output := Value.int 0 },
                       { input := "(3, 5)", output := Value.int 8 }] }
      "def add(a, b): return a + b" (nsOf "add" addFun) addFun
      [{ input := "(1, 2)", output := Value.int 3 }]
      { input := "undefined_name", output := Value.int 0 }
      [{ input := "(3, 5)", output := Value.int 8 }]
      "NameError: name undefined_name is not defined"
      rfl rfl rfl
      (fun tc0 h => by
        simp only [List.mem_singleton] at h
        subst h
        exact ⟨Value.tuple [Value.int 1, Value.int 2], Value.int 3,
          rfl, rfl, rfl⟩)
      rfl
  · exact evaluate_execution_error.2.2
      (fun _ => Except.ok (nsOf "add" addFun)) evalDemo
      { level := "easy", task := "Add.", function_name := "add",
        test_cases := [{ input := "(1, 2)", output := Value.int 3 },
                       { input := "(7)", output := Value.int 7 },
                       { input := "(3, 5)", output := Value.int 8 }] }
      "def add(a, b): return a + b" (nsOf "add" addFun) addFun
      [{ input := "(1, 2)", output := Value.int 3 }]
      { input := "(7)", output := Value.int 7 }
      [{ input := "(3, 5)", output := Value.int 8 }]
      (Value.int 7) "TypeError: add expects two int arguments"
      rfl rfl rfl
      (fun tc0 h => by
        simp only [List.mem_singleton] at h
        subst h
        exact ⟨Value.tuple [Value.int 1, Value.int 2], Value.int 3,
          rfl, rfl, rfl⟩)
      rfl rfl

/-- C4: a parsed input that is a tuple is unpacked as positional arguments,
and any other parsed input is passed as the sole positional argument; when
the call returns a value structurally equal to the expected output the case
passes.  The third conjunct is the worked example of the spec: input text
`(1, 2)` against `add(a, b): return a + b` with expected output `3` yields
AllPassed. -/
theorem evaluate_tuple_unpacking :
    (∀ (ex : String → Except String PyNamespace)
       (ev : String → Except String Value)
       (task : Task) (code : String) (ns : PyNamespace) (f : PyFun)
       (tc : TestCase) (args : List Value) (r : Value),
      ex code = Except.ok ns →
      ns task.function_name = Option.some f →
      task.test_cases = [tc] →
      ev tc.input = Except.ok (Value.tuple args) →
      f args = Except.ok r →
      pyEq r tc.output = true →
      evaluate ex ev task code = Verdict.AllPassed) ∧
    (∀ (ex : String → Except String PyNamespace)
       (ev : String → Except String Value)
       (task : Task) (code : String) (ns : PyNamespace) (f : PyFun)
       (tc : TestCase) (v r : Value),
      ex code = Except.ok ns →
      ns task.function_name = Option.some f →
      task.test_cases = [tc] →
      ev tc.input = Except.ok v →
      v.isTuple = false →
      f [v] = Except.ok r →
      pyEq r tc.output = true →
      evaluate ex ev task code = Verdict.AllPassed) ∧
    evaluate (fun _ => Except.ok (nsOf "add" addFun)) evalDemo addTask
      "def add(a, b): return a + b" = Verdict.AllPassed := by
  refine ⟨?_, ?_, rfl⟩
  · intro ex ev task code ns f tc args r hex hf hcases hev hcall heq
    simp [evaluate, hex, hf, hcases, runCases, hev, callOn, hcall, heq]
  · intro ex ev task code ns f tc v r hex hf hcases hev hvt hcall heq
    have hc : callOn f v = Except.ok r := by
      cases v <;> simp_all [callOn, Value.isTuple]
    simp [evaluate, hex, hf, hcases, runCases, hev, hc, heq]

/-- C4 witness: the tuple conjunct at the worked example, and the non-tuple
conjunct at the input text `(7)` — which Python parses as the plain int 7 —
against the identity-like callable. -/
theorem evaluate_tuple_unpacking_witness :
    evaluate (fun _ => Except.ok (nsOf "add" addFun)) evalDemo addTask
        "def add(a, b): return a + b" = Verdict.AllPassed ∧
    evaluate (fun _ => Except.ok (nsOf "make_list" listFun)) evalDemo listTask
        "def make_list(x): return [1, 2, 3]" = Verdict.AllPassed := by
  refine ⟨?_, ?_⟩
  · exact evaluate_tuple_unpacking.1 (fun _ => Except.ok (nsOf "add" addFun))
      evalDemo addTask "def add(a, b): return a + b" (nsOf "add" addFun)
      addFun { input := "(1, 2)", output := Value.int 3 }
      [Value.int 1, Value.int 2] (Value.int 3) rfl rfl rfl rfl rfl rfl
  · exact evaluate_tuple_unpacking.2.1
      (fun _ => Except.ok (nsOf "make_list" listFun)) evalDemo listTask
      "def make_list(x): return [1, 2, 3]" (nsOf "make_list" listFun)
      listFun
      { input := "(7)",
        output := Value.list [Value.int 1, Value.int 2, Value.int 3] }
      (Value.int 7)
      (Value.list [Value.int 1, Value.int 2, Value.int 3])
      rfl rfl rfl rfl rfl rfl rfl

/-- C5: pass/fail is decided by structural equality of the returned value
with the expected output, not identity: a callable returning a freshly
constructed list with the same contents as the expected list passes. -/
theorem evaluate_structural_equality
    (ex : String → Except String PyNamespace)
    (ev : String → Except String Value)
    (task : Task) (code : String) (ns : PyNamespace) (f : PyFun)
    (tc : TestCase) (xs : List Value) (v : Value)
    (hex : ex code = Except.ok ns)
    (hf : ns task.function_name = Option.some f)
    (hcases : task.test_cases = [tc])
    (hout : tc.output = Value.list xs)
    (hev : ev tc.input = Except.ok v)
    (hcall : callOn f v = Except.ok (Value.list xs)) :
    evaluate ex ev task code = Verdict.AllPassed := by
  simp [evaluate, hex, hf, hcases, runCases, hev, hcall, hout, pyEq_refl]

/-- C5 witness: the list-returning submission against the list-expecting
task; the returned list is a fresh construction with the expected contents. -/
theorem evaluate_structural_equality_witness :
    evaluate (fun _ => Except.ok (nsOf "make_list" listFun)) evalDemo
        listTask "def make_list(x): return [1, 2, 3]" =
      Verdict.AllPassed :=
  evaluate_structural_equality
    (fun _ => Except.ok (nsOf "make_list" listFun)) evalDemo listTask
    "def make_list(x): return [1, 2, 3]" (nsOf "make_list" listFun) listFun
    { input := "(7)",
      output := Value.list [Value.int 1, Value.int 2, Value.int 3] }
    [Value.int 1, Value.int 2, Value.int 3] (Value.int 7)
    rfl rfl rfl rfl rfl rfl

/-- C7: the engine is total — for every exec oracle, eval oracle, task and
code string it produces exactly one Verdict, which is one of the four
variants; no exception escapes past the engine boundary, since every raise
of the oracles or the callable is consumed by a match arm. -/
theorem evaluate_total (ex : String → Except String PyNamespace)
    (ev : String → Except String Value) (task : Task) (code : String) :
    evaluate ex ev task code = Verdict.AllPassed ∨
    (∃ n, evaluate ex ev task code = Verdict.FunctionMissing n) ∨
    (∃ i s e a, evaluate ex ev task code = Verdict.TestFailed i s e a) ∨
    (∃ m, evaluate ex ev task code = Verdict.ExecutionError m) := by
  cases hv : evaluate ex ev task code with
  | AllPassed => exact Or.inl rfl
  | FunctionMissing n => exact Or.inr (Or.inl ⟨n, rfl⟩)
  | TestFailed i s e a => exact Or.inr (Or.inr (Or.inl ⟨i, s, e, a, rfl⟩))
  | ExecutionError m => exact Or.inr (Or.inr (Or.inr ⟨m, rfl⟩))

/-- C8: evaluation is deterministic — with the oracles fixed (which is what
"no external side effects" means in the embedding: exec, eval and the loaded
callable are functions of their inputs), evaluating the same (task, code)
pair twice yields the same Verdict. -/
theorem evaluate_deterministic (ex : String → Except String PyNamespace)
    (ev : String → Except String Value) (task : Task) (code : String) :
    evaluate ex ev task code = evaluate ex ev task code := rfl

/-- C9: after the deduplication pass the catalog contains no two tasks with
the same (level, description, function_name) tuple, the kept tasks are a
sublist of the input in the original order, and for every tuple the first
task carrying it in the output is the first task carrying it in the input
— the first occurrence is the one kept. -/
theorem unique_tasks_no_duplicate_keys (ts : List Task) :
    (unique_tasks ts).Pairwise (fun a b => taskKey a ≠ taskKey b) ∧
    (unique_tasks ts).Sublist ts ∧
    ∀ k, (unique_tasks ts).find? (fun t => decide (taskKey t = k)) =
      ts.find? (fun t => decide (taskKey t = k)) :=
  ⟨dedupAux_pairwise ts [], dedupAux_sublist ts [],
    fun k => dedupAux_find? ts [] k (List.not_mem_nil k)⟩

/-- C10 counterexample: the claim as stated fails when the sibling is named
after a builtin.  The submission defines `len` (returning 42) and
`length_of` calling the free name `len`; under
`exec(user_code, {}, local_vars)` the free `len` resolves to the builtin
inserted into the globals dict — not to the sibling and not to a NameError —
so on input text `[1, 2]` with expected output `2` the verdict is AllPassed
(the builtin length 2, not the sibling's 42), not ExecutionError. -/
theorem evaluate_separate_globals_counterexample :
    evaluate
        (fun _ => Except.ok (execSeparateNamespaces builtinsDemo
          [("len", Body.selfContained (fun _ => Except.ok (Value.int 42))),
           ("length_of", Body.callsFree "len" (fun args => args))]))
        evalDemo
        { level := "easy", task := "Length.", function_name := "length_of",
          test_cases := [{ input := "[1, 2]", output := Value.int 2 }] }
        "def len(x): return 42\ndef length_of(x): return len(x)" =
      Verdict.AllPassed ∧
    Verdict.AllPassed ≠
      Verdict.ExecutionError "NameError: name len is not defined" :=
  ⟨rfl, fun h => Verdict.noConfusion h⟩

/-- C10 (amended): because `exec(user_code, {}, local_vars)` separates the
globals dict from the dict collecting the definitions, a submitted function
whose body calls another top-level name of the same submission cannot reach
that sibling; provided the sibling's name also does not resolve in the
builtins namespace that CPython inserts into the globals dict, the first
invocation raises NameError: for a submission of defs whose required
function compiles to a closure calling the free name `g` — even with `g`
among the submission's own defs — the first test case produces
ExecutionError, not AllPassed or TestFailed. -/
theorem evaluate_separate_globals
    (builtins : PyNamespace)
    (ev : String → Except String Value) (task : Task) (code : String)
    (defs : List (String × Body)) (g : String)
    (argsOf : List Value → List Value) (tc : TestCase)
    (rest : List TestCase) (v : Value)
    (hf : execSeparateNamespaces builtins defs task.function_name =
      Option.some (compileDef builtins (Body.callsFree g argsOf)))
    (hg : ∃ b, (g, b) ∈ defs)
    (hb : builtins g = Option.none)
    (hcases : task.test_cases = tc :: rest)
    (hev : ev tc.input = Except.ok v) :
    evaluate (fun _ => Except.ok (execSeparateNamespaces builtins defs))
        ev task code =
      Verdict.ExecutionError ("NameError: name " ++ g ++ " is not defined") := by
  simp [evaluate, hf, hcases, runCases, hev,
    compileDef_unresolvedFree builtins g argsOf v hb]

/-- C10 witness: the submission defines `outer` calling the sibling def
`helper`, a name the builtins namespace does not resolve; looking up `outer`
succeeds but its first invocation reports the NameError for `helper`. -/
theorem evaluate_separate_globals_witness :
    evaluate
        (fun _ => Except.ok (execSeparateNamespaces builtinsDemo
          [("outer", Body.callsFree "helper" (fun args => args)),
           ("helper", Body.selfContained (fun _ => Except.ok (Value.int 0)))]))
        evalDemo
        { level := "easy", task := "Compose.", function_name := "outer",
          test_cases := [{ input := "(7)", output := Value.int 0 }] }
        "def outer(x): return helper(x)" =
      Verdict.ExecutionError "NameError: name helper is not defined" :=
  evaluate_separate_globals builtinsDemo evalDemo
    { level := "easy", task := "Compose.", function_name := "outer",
      test_cases := [{ input := "(7)", output := Value.int 0 }] }
    "def outer(x): return helper(x)"
    [("outer", Body.callsFree "helper" (fun args => args)),
     ("helper", Body.selfContained (fun _ => Except.ok (Value.int 0)))]
    "helper" (fun args => args)
    { input := "(7)", output := Value.int 0 } [] (Value.int 7)
    rfl
    ⟨Body.selfContained (fun _ => Except.ok (Value.int 0)),
      List.Mem.tail _ (List.Mem.head _)⟩
    rfl rfl rfl

end Bot
